import Mathlib

/-!
Shallow embedding of the client-side note synchronization core of the
notes application: the zustand store (lib/store) and the NoteEditor
component (components/note-editor, both revisions — the two revisions
agree on all modelled state and differ only in logging, readiness
bookkeeping and focus/blur side effects).

Network replies of the remote store (supabase) are passed in as explicit
parameters of type Except StoreError _; React state cells become fields
of explicit state records; toasts become an emitted list of events;
network update calls are counted.
-/

namespace NotesApp

/-- A note record as defined in lib/store (interface Note). Timestamps and
the owner id are opaque strings to the core. -/
structure Note where
  id : String
  title : String
  content : String
  created_at : String
  updated_at : String
  user_id : String
deriving DecidableEq

/-- Failure kinds of the remote note store. -/
inductive StoreError
  | storeUnavailable
  | notFound
  | forbidden
deriving DecidableEq

/-- The store state consumed by the editor: the notes list and the
selected note (fields of NotesState in lib/store). -/
structure NotesState where
  notes : List Note
  selectedNote : Option Note
deriving DecidableEq

/-- The partial record the editor sends in updateNote(id, updates):
always exactly a title and a content. -/
structure NoteUpdates where
  title : String
  content : String
deriving DecidableEq

/-- The set(...) state update inside the store's updateNote, run when the
backend returned the updated record: every note whose id matches is
replaced by the returned record, and selectedNote is replaced exactly
when its id matches. -/
def updateNoteApply (st : NotesState) (id : String) (note : Note) : NotesState :=
  { notes := st.notes.map (fun n => if n.id = id then note else n),
    selectedNote :=
      match st.selectedNote with
      | some sn => if sn.id = id then some note else some sn
      | none => none }

/-- Embeds updateNote from lib/store. The backend reply is the resp
parameter. On a backend error the function throws inside its own try
and immediately catches it (console.error only), so the promise always
resolves: the result is .ok in every case, with the state unchanged on
error. -/
def updateNote (st : NotesState) (id : String) (updates : NoteUpdates)
    (resp : Except StoreError Note) : Except StoreError NotesState :=
  match resp with
  | .error _ => .ok st
  | .ok note => .ok (updateNoteApply st id note)

/-- The set(...) state update inside the store's deleteNote: notes whose
id matches are filtered out; selectedNote becomes none exactly when its
id matches. -/
def deleteNoteApply (st : NotesState) (id : String) : NotesState :=
  { notes := st.notes.filter (fun note => note.id != id),
    selectedNote :=
      match st.selectedNote with
      | some sn => if sn.id = id then none else some sn
      | none => none }

/-- Embeds deleteNote from lib/store. Like updateNote, a backend error is
caught inside the function itself, so the promise always resolves. -/
def deleteNote (st : NotesState) (id : String) (resp : Except StoreError Unit) :
    Except StoreError NotesState :=
  match resp with
  | .error _ => .ok st
  | .ok _ => .ok (deleteNoteApply st id)

/-- Embeds setSelectedNote from lib/store. -/
def setSelectedNote (st : NotesState) (note : Option Note) : NotesState :=
  { st with selectedNote := note }

/-- The NoteEditor component state: the React state cells title, content,
isPreview, hasUnsavedChanges, lastSavedTimestamp, plus the ref cell
prevSelectedNoteIdRef. The ref mirrors titleRef, contentRef and
selectedNoteRef are kept in sync with the corresponding state by
effects, so within one event they coincide with the modelled fields. -/
structure EditorState where
  title : String
  content : String
  isPreview : Bool
  hasUnsavedChanges : Bool
  lastSavedTimestamp : Nat
  prevSelectedNoteId : Option String
deriving DecidableEq

/-- A user-facing toast event (sonner). -/
inductive Toast
  | success (msg : String)
  | error (msg : String)
  | info (msg : String)
deriving DecidableEq

/-- The combined outcome of one save path: resulting editor and store
state, the toasts emitted, how many network update calls were issued,
and the Boolean the function returned. -/
structure SaveOutcome where
  editor : EditorState
  store : NotesState
  toasts : List Toast
  updateCalls : Nat
  returned : Bool
deriving DecidableEq

/-- Embeds stableExecuteSave. If there is no original note, or the values
to save equal the original note's fields, it clears the dirty flag and
returns true with no network call. Otherwise it awaits updateNote; since
updateNote always resolves, the catch branch (toast 'Failed to save
note', keep hasUnsavedChanges, return false) is unreachable, and the
success branch runs even when the backend rejected the update. -/
def stableExecuteSave (ed : EditorState) (st : NotesState)
    (noteId titleToSave contentToSave : String)
    (originalNote : Option Note) (resp : Except StoreError Note)
    (now : Nat) : SaveOutcome :=
  match originalNote with
  | none =>
      { editor := { ed with hasUnsavedChanges := false }, store := st,
        toasts := [], updateCalls := 0, returned := true }
  | some orig =>
      if titleToSave = orig.title ∧ contentToSave = orig.content then
        { editor := { ed with hasUnsavedChanges := false }, store := st,
          toasts := [], updateCalls := 0, returned := true }
      else
        match updateNote st noteId ⟨titleToSave, contentToSave⟩ resp with
        | .ok st' =>
            { editor := { ed with lastSavedTimestamp := now, hasUnsavedChanges := false },
              store := st',
              toasts := [Toast.success "Note saved successfully"],
              updateCalls := 1, returned := true }
        | .error _ =>
            { editor := ed, store := st,
              toasts := [Toast.error "Failed to save note"],
              updateCalls := 1, returned := false }

/-- Embeds handleManualSave: with a selected note it calls
stableExecuteSave on the latest ref values (modelled by the current
editor fields) and the selected note as the comparison baseline;
otherwise it only informs the user. The returned Boolean is discarded by
the source in the no-note branch. -/
def handleManualSave (ed : EditorState) (st : NotesState)
    (resp : Except StoreError Note) (now : Nat) : SaveOutcome :=
  match st.selectedNote with
  | some currentSelectedNote =>
      stableExecuteSave ed st currentSelectedNote.id ed.title ed.content
        (some currentSelectedNote) resp now
  | none =>
      { editor := ed, store := st,
        toasts := [Toast.info "No note selected to save. Create a new note first."],
        updateCalls := 0, returned := true }

/-- The outcome of handleDelete: resulting editor and store state and the
toasts emitted. -/
structure DeleteOutcome where
  editor : EditorState
  store : NotesState
  toasts : List Toast
deriving DecidableEq

/-- Embeds handleDelete: no-op without a selected note; otherwise awaits
deleteNote on the selected note's id. Since deleteNote always resolves,
the catch branch (toast 'Failed to delete note') is unreachable. -/
def handleDelete (ed : EditorState) (st : NotesState) (resp : Except StoreError Unit) :
    DeleteOutcome :=
  match st.selectedNote with
  | none => { editor := ed, store := st, toasts := [] }
  | some sn =>
      match deleteNote st sn.id resp with
      | .ok st' =>
          { editor := ed, store := st',
            toasts := [Toast.success "Note deleted successfully"] }
      | .error _ =>
          { editor := ed, store := st,
            toasts := [Toast.error "Failed to delete note"] }

/-- The outcome of handleTogglePreview: resulting state, toasts, whether
a save was attempted, and how many network update calls were issued. -/
structure ToggleOutcome where
  editor : EditorState
  store : NotesState
  toasts : List Toast
  saveAttempted : Bool
  updateCalls : Nat
deriving DecidableEq

/-- Embeds handleTogglePreview: if the quill instance is absent (not
ready in the second revision) nothing happens; otherwise, when in edit
mode with unsaved changes, handleManualSave is invoked (fire and
forget), and then isPreview is flipped unconditionally. -/
def handleTogglePreview (quillReady : Bool) (ed : EditorState) (st : NotesState)
    (resp : Except StoreError Note) (now : Nat) : ToggleOutcome :=
  if !quillReady then
    { editor := ed, store := st, toasts := [], saveAttempted := false, updateCalls := 0 }
  else if !ed.isPreview && ed.hasUnsavedChanges then
    let o := handleManualSave ed st resp now
    { editor := { o.editor with isPreview := !ed.isPreview },
      store := o.store, toasts := o.toasts,
      saveAttempted := true, updateCalls := o.updateCalls }
  else
    { editor := { ed with isPreview := !ed.isPreview },
      store := st, toasts := [], saveAttempted := false, updateCalls := 0 }

/-- The origin of a quill TEXT_CHANGE event (Quill.sources). -/
inductive QuillSource
  | user
  | api
  | silent
deriving DecidableEq

/-- Embeds the TEXT_CHANGE handler registered at quill construction: only
events with source USER update the content state, normalizing the
canonical empty representation to the empty string; events from
programmatic mutations (api or silent) leave the whole editor state
untouched. -/
def onTextChange (ed : EditorState) (source : QuillSource) (htmlContent : String) :
    EditorState :=
  match source with
  | .user =>
      let isEmptyContent := htmlContent == "<p><br></p>"
      { ed with content := if isEmptyContent then "" else htmlContent }
  | _ => ed

/-- Reading quill content normalizes the widget's canonical empty
representation back to the empty string. -/
def normalizeQuillHtml (html : String) : String :=
  if html = "<p><br></p>" then "" else html

/-- Embeds the selection-load effect of NoteEditor (both revisions agree
on the modelled state). The first component is the new editor state, the
second the quill surface's raw innerHTML afterwards (idealizing that
pasted HTML renders as itself, and that setContents([]) leaves the
canonical empty representation). With a selected note: title and content
state are set from the note, the surface is rewritten only when the note
identity changed or the surface content differs, isPreview is forced to
true only when the note identity changed, and the dirty flag is cleared.
With no selected note: empty draft, edit mode, clean. If the quill
instance is absent, the effect body does not run. -/
def loadSelectionEffect (quillReady : Bool) (ed : EditorState) (quillHtml : String)
    (selectedNote : Option Note) : EditorState × String :=
  if !quillReady then (ed, quillHtml)
  else
    match selectedNote with
    | some n =>
        let noteIdChanged := ed.prevSelectedNoteId != some n.id
        let currentQuillContent := normalizeQuillHtml quillHtml
        let quillHtml' :=
          if noteIdChanged || currentQuillContent != n.content then
            (if n.content = "" then "<p><br></p>" else n.content)
          else quillHtml
        ({ ed with title := n.title, content := n.content,
                   isPreview := if noteIdChanged then true else ed.isPreview,
                   hasUnsavedChanges := false,
                   prevSelectedNoteId := some n.id },
         quillHtml')
    | none =>
        ({ ed with title := "", content := "", isPreview := false,
                   hasUnsavedChanges := false, prevSelectedNoteId := none },
         "<p><br></p>")

/-- Embeds the dirty-recompute effect (deps title, content). Returns the
value passed to setHasUnsavedChanges and whether debouncedAutoSave() was
invoked, i.e. whether the autosave scheduler was armed. The comparison
baseline is the currently selected note (the role the spec calls
lastPersistedSnapshot); with no selected note the draft is compared to
empty strings and no autosave is armed. -/
def recomputeDirtyEffect (title content : String) (currentPersistedNote : Option Note) :
    Bool × Bool :=
  match currentPersistedNote with
  | some n =>
      let titleChanged := title != n.title
      let contentChanged := content != n.content
      let changed := titleChanged || contentChanged
      (changed, changed)
  | none =>
      (title != "" || content != "", false)

/-- The dirtiness baseline of the editor: the title and content of the
store's selected note record. The source keeps no separate snapshot
cell; the selected note itself (refreshed by updateNote on a successful
save) plays the role the spec calls lastPersistedSnapshot. -/
def lastPersistedSnapshot (st : NotesState) : Option (String × String) :=
  st.selectedNote.map (fun n => (n.title, n.content))

/-- Embeds the debounce utility: each call clears the pending timeout and
schedules a new one delay later. Given the (nondecreasing) times of the
arm calls, returns the times at which the wrapped function actually
runs: the timeout armed at t survives exactly when no further call
happens strictly before t + delay. -/
def debounceFireTimes (delay : Nat) : List Nat → List Nat
  | [] => []
  | [t] => [t + delay]
  | t :: t' :: rest =>
      (if t' < t + delay then [] else [t + delay]) ++ debounceFireTimes delay (t' :: rest)

/-- The time of the last arm call of a nonempty burst. -/
def lastArm (t : Nat) : List Nat → Nat
  | [] => t
  | t' :: rest => lastArm t' rest

/-- One invocation of stableExecuteSave issued by the autosave timer: the
note id and the draft values it was called with. -/
structure SaveInvocation where
  noteId : String
  title : String
  content : String
deriving DecidableEq

/-- Embeds debouncedAutoSave (the debounced callback body): at each fire
time it reads selectedNoteRef, titleRef and contentRef at that moment
(modelled as functions of time) and, if a note is selected, invokes
stableExecuteSave with those current values. -/
def debouncedAutoSaveTrace (armTimes : List Nat)
    (selectedNoteAt : Nat → Option Note) (titleAt contentAt : Nat → String) :
    List SaveInvocation :=
  (debounceFireTimes 1500 armTimes).filterMap fun f =>
    (selectedNoteAt f).map fun n =>
      { noteId := n.id, title := titleAt f, content := contentAt f }

/-- Saving twice in succession with no intervening edits: the second
handleManualSave runs on the editor and store state left by the first. -/
def saveTwice (ed : EditorState) (st : NotesState)
    (resp₁ resp₂ : Except StoreError Note) (t₁ t₂ : Nat) : SaveOutcome × SaveOutcome :=
  let o₁ := handleManualSave ed st resp₁ t₁
  (o₁, handleManualSave o₁.editor o₁.store resp₂ t₂)

/-- The store's updateNote never rejects: its internal catch swallows
every backend error, so the caller's try/catch can never take the catch
branch. -/
theorem updateNote_always_resolves (st : NotesState) (id : String)
    (updates : NoteUpdates) (resp : Except StoreError Note) :
    ∃ st', updateNote st id updates resp = .ok st' := by
  cases resp with
  | error e => exact ⟨st, rfl⟩
  | ok note => exact ⟨updateNoteApply st id note, rfl⟩

/-- The store's deleteNote never rejects, for the same reason. -/
theorem deleteNote_always_resolves (st : NotesState) (id : String)
    (resp : Except StoreError Unit) :
    ∃ st', deleteNote st id resp = .ok st' := by
  cases resp with
  | error e => exact ⟨st, rfl⟩
  | ok u => exact ⟨deleteNoteApply st id, rfl⟩

/-- C1: at the spec's Scenario D input — note {id 3, title A, content B}
selected, draft title edited to A2, store update failing with
StoreUnavailable — the save path emits the SUCCESS toast and clears
hasUnsavedChanges, while the store state (the dirtiness baseline) stays
unchanged and only this single call is issued (no retry). The claim's
conjuncts 'dirty remains unchanged' and 'failure is reported' fail:
updateNote swallows the backend error, so stableExecuteSave's catch
branch (toast 'Failed to save note', keep the dirty flag) is dead
code even though its comment states that intent. -/
theorem save_store_failure_misreported :
    stableExecuteSave ⟨"A2", "B", false, true, 0, some "3"⟩
        ⟨[⟨"3", "A", "B", "c", "u0", "o"⟩], some ⟨"3", "A", "B", "c", "u0", "o"⟩⟩
        "3" "A2" "B" (some ⟨"3", "A", "B", "c", "u0", "o"⟩)
        (Except.error StoreError.storeUnavailable) 1 =
      { editor := ⟨"A2", "B", false, false, 1, some "3"⟩,
        store := ⟨[⟨"3", "A", "B", "c", "u0", "o"⟩], some ⟨"3", "A", "B", "c", "u0", "o"⟩⟩,
        toasts := [Toast.success "Note saved successfully"],
        updateCalls := 1, returned := true } := by
  decide

/-- C2: delete of the selected note {id 2}: on store success the
selection becomes none (and the note leaves the list); on store failure
(StoreUnavailable) the selection is unchanged, but the code emits the
SUCCESS toast 'Note deleted successfully' instead of reporting the
failure: deleteNote swallows the backend error, so handleDelete's catch
branch (toast 'Failed to delete note') is dead code. -/
theorem delete_failure_misreported :
    handleDelete ⟨"T", "C", true, false, 0, some "2"⟩
        ⟨[⟨"2", "T", "C", "c", "u0", "o"⟩], some ⟨"2", "T", "C", "c", "u0", "o"⟩⟩
        (Except.ok ()) =
      { editor := ⟨"T", "C", true, false, 0, some "2"⟩,
        store := ⟨[], none⟩,
        toasts := [Toast.success "Note deleted successfully"] } ∧
    handleDelete ⟨"T", "C", true, false, 0, some "2"⟩
        ⟨[⟨"2", "T", "C", "c", "u0", "o"⟩], some ⟨"2", "T", "C", "c", "u0", "o"⟩⟩
        (Except.error StoreError.storeUnavailable) =
      { editor := ⟨"T", "C", true, false, 0, some "2"⟩,
        store := ⟨[⟨"2", "T", "C", "c", "u0", "o"⟩], some ⟨"2", "T", "C", "c", "u0", "o"⟩⟩,
        toasts := [Toast.success "Note deleted successfully"] } := by
  constructor
  · decide
  · decide

/-- C3: when the selection changes to a note N whose identity differs
from the previously loaded one, the draft resets to N's title and
content, mode becomes preview, the dirty flag becomes clean, and the
dirtiness baseline (the selected note record, playing the spec's
lastPersistedSnapshot) is exactly (N.title, N.content); so reading the
draft immediately after the load yields N's fields with dirty clean. -/
theorem load_selection_resets_draft (ed : EditorState) (st : NotesState)
    (quillHtml : String) (n : Note)
    (hid : ed.prevSelectedNoteId ≠ some n.id) :
    ((loadSelectionEffect true ed quillHtml
        (setSelectedNote st (some n)).selectedNote).1.title = n.title) ∧
    ((loadSelectionEffect true ed quillHtml
        (setSelectedNote st (some n)).selectedNote).1.content = n.content) ∧
    ((loadSelectionEffect true ed quillHtml
        (setSelectedNote st (some n)).selectedNote).1.isPreview = true) ∧
    ((loadSelectionEffect true ed quillHtml
        (setSelectedNote st (some n)).selectedNote).1.hasUnsavedChanges = false) ∧
    (lastPersistedSnapshot (setSelectedNote st (some n)) = some (n.title, n.content)) := by
  have hb : (ed.prevSelectedNoteId != some n.id) = true := by
    simpa [bne_iff_ne] using hid
  simp [loadSelectionEffect, setSelectedNote, lastPersistedSnapshot, hb]

theorem load_selection_resets_draft_witness :
    ((loadSelectionEffect true ⟨"x", "y", false, true, 0, none⟩ "<p><br></p>"
        (setSelectedNote ⟨[], none⟩ (some ⟨"1", "T", "C", "c", "u0", "o"⟩)).selectedNote).1.isPreview
      = true) ∧
    ((loadSelectionEffect true ⟨"x", "y", false, true, 0, none⟩ "<p><br></p>"
        (setSelectedNote ⟨[], none⟩ (some ⟨"1", "T", "C", "c", "u0", "o"⟩)).selectedNote).1.title
      = "T") :=
  ⟨(load_selection_resets_draft ⟨"x", "y", false, true, 0, none⟩ ⟨[], none⟩ "<p><br></p>"
      ⟨"1", "T", "C", "c", "u0", "o"⟩ (by decide)).2.2.1,
   (load_selection_resets_draft ⟨"x", "y", false, true, 0, none⟩ ⟨[], none⟩ "<p><br></p>"
      ⟨"1", "T", "C", "c", "u0", "o"⟩ (by decide)).1⟩

/-- C4: after an edit, the recompute effect sets the dirty flag exactly
when the draft differs from the persisted baseline, and it arms the
autosave scheduler exactly when the recomputed dirty flag is set; with
no note selected, dirty holds exactly when some draft field is nonempty
and the scheduler is never armed. -/
theorem edit_recomputes_dirty_and_arms (title content : String) (n : Note) :
    ((recomputeDirtyEffect title content (some n)).1 = true ↔
        (title ≠ n.title ∨ content ≠ n.content)) ∧
    ((recomputeDirtyEffect title content (some n)).2 =
        (recomputeDirtyEffect title content (some n)).1) ∧
    ((recomputeDirtyEffect title content none).1 = true ↔
        (title ≠ "" ∨ content ≠ "")) ∧
    ((recomputeDirtyEffect title content none).2 = false) := by
  refine ⟨?_, rfl, ?_, rfl⟩ <;>
    simp [recomputeDirtyEffect, bne_iff_ne]

/-- C7: a mode-toggle request while in edit mode with a dirty draft
first attempts a save (saveAttempted) and flips the mode to preview
whatever the store's reply resp is — in particular when the update
fails, so a failed save never traps the user in edit mode. -/
theorem toggle_preview_saves_then_flips (ed : EditorState) (st : NotesState)
    (resp : Except StoreError Note) (now : Nat)
    (hmode : ed.isPreview = false) (hdirty : ed.hasUnsavedChanges = true) :
    (handleTogglePreview true ed st resp now).saveAttempted = true ∧
    (handleTogglePreview true ed st resp now).editor.isPreview = true := by
  simp [handleTogglePreview, hmode, hdirty]

theorem toggle_preview_saves_then_flips_witness :
    (handleTogglePreview true ⟨"T2", "C", false, true, 0, some "1"⟩
        ⟨[⟨"1", "T", "C", "c", "u0", "o"⟩], some ⟨"1", "T", "C", "c", "u0", "o"⟩⟩
        (Except.error StoreError.storeUnavailable) 7).saveAttempted = true ∧
    (handleTogglePreview true ⟨"T2", "C", false, true, 0, some "1"⟩
        ⟨[⟨"1", "T", "C", "c", "u0", "o"⟩], some ⟨"1", "T", "C", "c", "u0", "o"⟩⟩
        (Except.error StoreError.storeUnavailable) 7).editor.isPreview = true :=
  toggle_preview_saves_then_flips ⟨"T2", "C", false, true, 0, some "1"⟩
    ⟨[⟨"1", "T", "C", "c", "u0", "o"⟩], some ⟨"1", "T", "C", "c", "u0", "o"⟩⟩
    (Except.error StoreError.storeUnavailable) 7 rfl rfl

/-- C8: when the selection changes to none, the draft resets to empty
strings, the dirty flag becomes clean, and mode becomes edit
(isPreview = false) — so mode is never preview immediately after this
transition. -/
theorem deselect_resets_to_empty_edit (ed : EditorState) (st : NotesState)
    (quillHtml : String) :
    ((loadSelectionEffect true ed quillHtml
        (setSelectedNote st none).selectedNote).1.title = "") ∧
    ((loadSelectionEffect true ed quillHtml
        (setSelectedNote st none).selectedNote).1.content = "") ∧
    ((loadSelectionEffect true ed quillHtml
        (setSelectedNote st none).selectedNote).1.hasUnsavedChanges = false) ∧
    ((loadSelectionEffect true ed quillHtml
        (setSelectedNote st none).selectedNote).1.isPreview = false) := by
  simp [loadSelectionEffect, setSelectedNote]

/-- C9: the TEXT_CHANGE handler leaves the whole editor state — the
draft and the dirty flag included — untouched for any change whose
source is not USER (programmatic setContents and paste calls carry
source api); only user-sourced changes update the draft content,
normalizing the canonical empty representation to the empty string. -/
theorem text_change_user_only (ed : EditorState) (htmlContent : String) :
    (∀ source, source ≠ QuillSource.user → onTextChange ed source htmlContent = ed) ∧
    onTextChange ed QuillSource.user htmlContent =
      { ed with content := if htmlContent == "<p><br></p>" then "" else htmlContent } := by
  constructor
  · intro source hs
    cases source with
    | user => exact absurd rfl hs
    | api => rfl
    | silent => rfl
  · rfl

theorem text_change_user_only_witness :
    onTextChange ⟨"T", "C", false, false, 0, some "1"⟩ QuillSource.api "<p>z</p>" =
      ⟨"T", "C", false, false, 0, some "1"⟩ :=
  (text_change_user_only ⟨"T", "C", false, false, 0, some "1"⟩ "<p>z</p>").1
    QuillSource.api (by decide)

/-- C5: with a note selected, (a) if the draft equals the persisted
baseline, Save makes no network update call, returns success, and
clears the dirty flag, whatever the store would have replied; (b) from a
dirty draft, saving twice in succession with no intervening edits and a
first save that succeeds (server echoing the sent fields) issues exactly
one network update call: the first save issues it, the second
short-circuits with success and no call. -/
theorem save_short_circuit_idempotent (ed : EditorState) (st : NotesState) (orig : Note)
    (hsel : st.selectedNote = some orig) :
    ((ed.title = orig.title ∧ ed.content = orig.content) →
      ∀ (resp : Except StoreError Note) (now : Nat),
        (handleManualSave ed st resp now).updateCalls = 0 ∧
        (handleManualSave ed st resp now).returned = true ∧
        (handleManualSave ed st resp now).editor.hasUnsavedChanges = false) ∧
    (¬(ed.title = orig.title ∧ ed.content = orig.content) →
      ∀ (n' : Note) (resp₂ : Except StoreError Note) (t₁ t₂ : Nat),
        n'.title = ed.title → n'.content = ed.content →
        (saveTwice ed st (Except.ok n') resp₂ t₁ t₂).1.updateCalls = 1 ∧
        (saveTwice ed st (Except.ok n') resp₂ t₁ t₂).2.updateCalls = 0 ∧
        (saveTwice ed st (Except.ok n') resp₂ t₁ t₂).2.returned = true) := by
  constructor
  · rintro ⟨h1, h2⟩ resp now
    simp [handleManualSave, hsel, stableExecuteSave, h1, h2]
  · intro hne n' resp₂ t₁ t₂ hnt hnc
    have h₁ : handleManualSave ed st (Except.ok n') t₁ =
        { editor := { ed with lastSavedTimestamp := t₁, hasUnsavedChanges := false },
          store := updateNoteApply st orig.id n',
          toasts := [Toast.success "Note saved successfully"],
          updateCalls := 1, returned := true } := by
      simp [handleManualSave, hsel, stableExecuteSave, hne, updateNote]
    have hsel' : (updateNoteApply st orig.id n').selectedNote = some n' := by
      simp [updateNoteApply, hsel]
    simp only [saveTwice]
    rw [h₁]
    refine ⟨rfl, ?_, ?_⟩ <;>
      simp [handleManualSave, hsel', stableExecuteSave, hnt, hnc]

theorem save_short_circuit_idempotent_witness :
    (handleManualSave ⟨"T", "C", false, false, 0, some "1"⟩
        ⟨[⟨"1", "T", "C", "c", "u0", "o"⟩], some ⟨"1", "T", "C", "c", "u0", "o"⟩⟩
        (Except.error StoreError.storeUnavailable) 3).updateCalls = 0 ∧
    (saveTwice ⟨"T2", "C", false, true, 0, some "1"⟩
        ⟨[⟨"1", "T", "C", "c", "u0", "o"⟩], some ⟨"1", "T", "C", "c", "u0", "o"⟩⟩
        (Except.ok ⟨"1", "T2", "C", "c", "u1", "o"⟩)
        (Except.ok ⟨"1", "T2", "C", "c", "u2", "o"⟩) 1 2).1.updateCalls = 1 ∧
    (saveTwice ⟨"T2", "C", false, true, 0, some "1"⟩
        ⟨[⟨"1", "T", "C", "c", "u0", "o"⟩], some ⟨"1", "T", "C", "c", "u0", "o"⟩⟩
        (Except.ok ⟨"1", "T2", "C", "c", "u1", "o"⟩)
        (Except.ok ⟨"1", "T2", "C", "c", "u2", "o"⟩) 1 2).2.updateCalls = 0 := by
  refine ⟨?_, ?_, ?_⟩
  · exact ((save_short_circuit_idempotent ⟨"T", "C", false, false, 0, some "1"⟩
      ⟨[⟨"1", "T", "C", "c", "u0", "o"⟩], some ⟨"1", "T", "C", "c", "u0", "o"⟩⟩
      ⟨"1", "T", "C", "c", "u0", "o"⟩ rfl).1 (by decide)
      (Except.error StoreError.storeUnavailable) 3).1
  · exact ((save_short_circuit_idempotent ⟨"T2", "C", false, true, 0, some "1"⟩
      ⟨[⟨"1", "T", "C", "c", "u0", "o"⟩], some ⟨"1", "T", "C", "c", "u0", "o"⟩⟩
      ⟨"1", "T", "C", "c", "u0", "o"⟩ rfl).2 (by decide)
      ⟨"1", "T2", "C", "c", "u1", "o"⟩ (Except.ok ⟨"1", "T2", "C", "c", "u2", "o"⟩) 1 2
      rfl rfl).1
  · exact ((save_short_circuit_idempotent ⟨"T2", "C", false, true, 0, some "1"⟩
      ⟨[⟨"1", "T", "C", "c", "u0", "o"⟩], some ⟨"1", "T", "C", "c", "u0", "o"⟩⟩
      ⟨"1", "T", "C", "c", "u0", "o"⟩ rfl).2 (by decide)
      ⟨"1", "T2", "C", "c", "u1", "o"⟩ (Except.ok ⟨"1", "T2", "C", "c", "u2", "o"⟩) 1 2
      rfl rfl).2.1

/-- A burst of arm calls in which each call arrives strictly before the
previously armed timeout would fire leaves exactly one surviving
timeout, the one armed by the last call. -/
theorem debounceFireTimes_chain (d : Nat) (ts : List Nat) :
    ∀ t, List.Chain (fun a b => b < a + d) t ts →
      debounceFireTimes d (t :: ts) = [lastArm t ts + d] := by
  induction ts with
  | nil =>
      intro t _
      simp [debounceFireTimes, lastArm]
  | cons t' rest ih =>
      intro t hchain
      rw [List.chain_cons] at hchain
      have hrec := ih t' hchain.2
      simp [debounceFireTimes, hchain.1, lastArm, hrec]

/-- C6: for a burst of edits in which every edit re-arms the scheduler
within the 1.5 second quiet period of the previous one, the debounced
timer fires exactly once, 1.5 seconds after the last edit; hence at most
one Save invocation results, and any resulting invocation carries the
draft values read at fire time — i.e. after the burst has ended — not
the values captured when the timer was first armed. -/
theorem autosave_debounce_burst (t : Nat) (ts : List Nat)
    (selectedNoteAt : Nat → Option Note) (titleAt contentAt : Nat → String)
    (hchain : List.Chain (fun a b => b < a + 1500) t ts) :
    debounceFireTimes 1500 (t :: ts) = [lastArm t ts + 1500] ∧
    (debouncedAutoSaveTrace (t :: ts) selectedNoteAt titleAt contentAt).length ≤ 1 ∧
    (∀ inv ∈ debouncedAutoSaveTrace (t :: ts) selectedNoteAt titleAt contentAt,
      inv.title = titleAt (lastArm t ts + 1500) ∧
      inv.content = contentAt (lastArm t ts + 1500)) := by
  have hf := debounceFireTimes_chain 1500 ts t hchain
  refine ⟨hf, ?_, ?_⟩
  · unfold debouncedAutoSaveTrace
    rw [hf]
    cases h : selectedNoteAt (lastArm t ts + 1500) <;>
      simp [List.filterMap_cons, h]
  · intro inv hinv
    unfold debouncedAutoSaveTrace at hinv
    rw [hf] at hinv
    cases h : selectedNoteAt (lastArm t ts + 1500) with
    | none => simp [List.filterMap_cons, h] at hinv
    | some n =>
        simp [List.filterMap_cons, h] at hinv
        subst hinv
        exact ⟨rfl, rfl⟩

theorem autosave_debounce_burst_witness :
    debounceFireTimes 1500 [0, 100, 200] = [1700] :=
  (autosave_debounce_burst 0 [100, 200] (fun _ => none) (fun _ => "") (fun _ => "")
    (List.Chain.cons (by decide) (List.Chain.cons (by decide) List.Chain.nil))).1

/-- C10: successful store mutations are frame-preserving. The update
path replaces, position by position, exactly the notes whose id matches
(leaving every other note unchanged) and replaces selectedNote exactly
when its id matches; the delete path keeps exactly the notes whose id
differs and makes the selection none exactly when the deleted id was the
selected one. The accompanying equations show the Except wrappers
reduce to these pure state updates on success. -/
theorem store_mutations_frame_preserving (st : NotesState) (id : String) (note : Note) :
    (updateNote st id ⟨note.title, note.content⟩ (Except.ok note) =
        Except.ok (updateNoteApply st id note)) ∧
    (∀ i : Nat, (updateNoteApply st id note).notes[i]? =
        (st.notes[i]?).map (fun n => if n.id = id then note else n)) ∧
    (∀ sn, st.selectedNote = some sn →
        (updateNoteApply st id note).selectedNote =
          if sn.id = id then some note else some sn) ∧
    (deleteNote st id (Except.ok ()) = Except.ok (deleteNoteApply st id)) ∧
    (∀ n ∈ st.notes, n.id ≠ id → n ∈ (deleteNoteApply st id).notes) ∧
    (∀ n ∈ (deleteNoteApply st id).notes, n ∈ st.notes ∧ n.id ≠ id) ∧
    (∀ sn, st.selectedNote = some sn →
        (deleteNoteApply st id).selectedNote =
          if sn.id = id then none else some sn) := by
  refine ⟨rfl, ?_, ?_, rfl, ?_, ?_, ?_⟩
  · intro i
    simp [updateNoteApply, List.getElem?_map]
  · intro sn h
    simp [updateNoteApply, h]
  · intro n hn hne
    simp [deleteNoteApply, List.mem_filter, hn, bne_iff_ne, hne]
  · intro n hn
    simp [deleteNoteApply, List.mem_filter, bne_iff_ne] at hn
    exact hn
  · intro sn h
    simp [deleteNoteApply, h]

theorem store_mutations_frame_preserving_witness :
    (⟨"2", "B", "X", "c", "u0", "o"⟩ : Note) ∈
      (deleteNoteApply
        ⟨[⟨"1", "A", "W", "c", "u0", "o"⟩, ⟨"2", "B", "X", "c", "u0", "o"⟩],
         some ⟨"1", "A", "W", "c", "u0", "o"⟩⟩ "1").notes ∧
    (updateNoteApply
        ⟨[⟨"1", "A", "W", "c", "u0", "o"⟩, ⟨"2", "B", "X", "c", "u0", "o"⟩],
         some ⟨"1", "A", "W", "c", "u0", "o"⟩⟩ "1"
        ⟨"1", "A2", "W", "c", "u1", "o"⟩).selectedNote =
      some ⟨"1", "A2", "W", "c", "u1", "o"⟩ := by
  have h := store_mutations_frame_preserving
    ⟨[⟨"1", "A", "W", "c", "u0", "o"⟩, ⟨"2", "B", "X", "c", "u0", "o"⟩],
     some ⟨"1", "A", "W", "c", "u0", "o"⟩⟩
    "1" ⟨"1", "A2", "W", "c", "u1", "o"⟩
  refine ⟨h.2.2.2.2.1 _ (by decide) (by decide), ?_⟩
  have h2 := h.2.2.1 ⟨"1", "A", "W", "c", "u0", "o"⟩ rfl
  simpa using h2

end NotesApp
